import Mathlib

/-!
Verification of the `eeg-driver` mock acquisition backend
(`src/board_driver/types.rs` and `src/board_driver/mock_driver.rs`).

The Rust code is shallowly embedded: the lock-guarded `MockInner` record and
the driver's `task_handle` become an explicit `MockDriverState`; each async
method becomes a pure function from state to `Except DriverError
(state × emitted events)`.  In this code every `Err` return happens before any
mutation of the shared state, so an `.error` result leaves the caller's state
as it was (made explicit by `postState`).  The wall clock
(`current_timestamp_micros`) is an explicit parameter wherever the code reads
it.  `f32` sample values are modelled as real numbers and `f32::sin` as
`Real.sin`; the unused `gain` field is modelled as a rational so that states
stay decidably comparable.
-/

namespace EegDriver

/-- `DriverStatus` from `types.rs`. -/
inductive DriverStatus where
  | NotInitialized
  | Ok
  | Error
  | Stopped
  | Running
deriving DecidableEq, Repr

/-- `AdcConfig` from `types.rs`, together with the `batch_size` field that
`mock_driver.rs` reads from it (`config.batch_size`). -/
structure AdcConfig where
  sample_rate : Nat
  gain : ℚ
  channels : List Nat
  mock : Bool
  batch_size : Nat
deriving DecidableEq, Repr

/-- `AdcData` from `types.rs`: per-channel sample vectors and a timestamp in
microseconds. -/
structure AdcData where
  samples : List (List ℝ)
  timestamp : Nat

/-- `DriverError` from `types.rs`. -/
inductive DriverError where
  | HardwareNotFound (msg : String)
  | ConfigurationError (msg : String)
  | AcquisitionError (msg : String)
  | NotInitialized
  | IoError (msg : String)
  | Other (msg : String)
  | NotConfigured
deriving DecidableEq, Repr

/-- `DriverEvent` from `types.rs`. -/
inductive DriverEvent where
  | Data (batch : List AdcData)
  | Error (msg : String)
  | StatusChange (status : DriverStatus)

/-- `MockInner` from `mock_driver.rs`: the lock-guarded shared record. -/
structure MockInner where
  config : Option AdcConfig
  running : Bool
  status : DriverStatus
deriving DecidableEq

/-- The observable state of a `MockDriver`: the shared `MockInner` plus
whether `task_handle` currently holds a background task
(`task_handle.is_some()`). -/
structure MockDriverState where
  inner : MockInner
  taskActive : Bool
deriving DecidableEq

/-- `MAX_BUFFER_SIZE` from `MockDriver::new`. -/
def MAX_BUFFER_SIZE : Nat := 10000

/-- `MockDriver::new(config, additional_channel_buffering)`.  Returns the
initial driver state together with the capacity passed to `mpsc::channel`. -/
def MockDriver.new (config : AdcConfig) (additional_channel_buffering : Nat) :
    Except DriverError (MockDriverState × Nat) :=
  if config.mock = false then
    .error (.ConfigurationError "MockDriver requires config.mock=true")
  else if config.batch_size = 0 then
    .error (.ConfigurationError "Batch size must be greater than 0")
  else if config.batch_size < config.channels.length then
    .error (.ConfigurationError
      ("Batch size (" ++ toString config.batch_size ++
       ") must be at least equal to the number of channels (" ++
       toString config.channels.length ++ ")"))
  else
    let channel_buffer_size := config.batch_size + additional_channel_buffering
    if channel_buffer_size > MAX_BUFFER_SIZE then
      .error (.ConfigurationError
        ("Total buffer size (" ++ toString channel_buffer_size ++
         ") exceeds maximum allowed (" ++ toString MAX_BUFFER_SIZE ++ ")"))
    else
      .ok ({ inner := { config := some config
                      , running := false
                      , status := .Ok }
           , taskActive := false }
          , channel_buffer_size)

/-- `MockDriver::start_acquisition`.  Checks `running` then `config.is_none()`
under the lock; on success sets `running = true`, status `Running`, sends one
`StatusChange(Running)` event and spawns the background task. -/
def MockDriver.start_acquisition (s : MockDriverState) :
    Except DriverError (MockDriverState × List DriverEvent) :=
  if s.inner.running then
    .error (.ConfigurationError "Acquisition already running")
  else if s.inner.config.isNone then
    .error .NotConfigured
  else
    .ok ({ inner := { s.inner with running := true, status := .Running }
         , taskActive := true }
        , [.StatusChange .Running])

/-- `MockDriver::stop_acquisition`.  Early `Ok` when not running; otherwise
clears `running`, awaits the task handle (`task_handle.take()`), sets status
`Stopped` and sends one `StatusChange(Stopped)` event. -/
def MockDriver.stop_acquisition (s : MockDriverState) :
    Except DriverError (MockDriverState × List DriverEvent) :=
  if s.inner.running = false then
    .ok (s, [])
  else
    .ok ({ inner := { s.inner with running := false, status := .Stopped }
         , taskActive := false }
        , [.StatusChange .Stopped])

/-- `MockDriver::shutdown`.  Stops acquisition when `running`, then clears the
config, sets status `NotInitialized` and sends `StatusChange(NotInitialized)`. -/
def MockDriver.shutdown (s : MockDriverState) :
    Except DriverError (MockDriverState × List DriverEvent) :=
  let should_stop := s.inner.running
  let afterStop : Except DriverError (MockDriverState × List DriverEvent) :=
    if should_stop then MockDriver.stop_acquisition s else .ok (s, [])
  match afterStop with
  | .error e => .error e
  | .ok (s₁, ev₁) =>
      .ok ({ inner := { s₁.inner with status := .NotInitialized, config := none }
           , taskActive := s₁.taskActive }
          , ev₁ ++ [.StatusChange .NotInitialized])

/-- `MockDriver::get_status`.  `lockOk` models whether `self.inner.lock()`
succeeds (it fails only on mutex poisoning); on failure the method returns the
`NotInitialized` fallback instead of an error. -/
def MockDriver.get_status (lockOk : Bool) (s : MockDriverState) : DriverStatus :=
  match lockOk with
  | true => s.inner.status
  | false => .NotInitialized

/-- The state a caller holds after one of the `Except`-returning methods: on
`.ok` the updated state, on `.error` the untouched input state (every `Err`
return in these methods occurs before any mutation). -/
def postState (s : MockDriverState)
    (r : Except DriverError (MockDriverState × List DriverEvent)) :
    MockDriverState :=
  match r with
  | .ok (s', _) => s'
  | .error _ => s

/-- `test_data(config, relative_micros)` from `mock_driver.rs`.  `clock_now`
is the value `current_timestamp_micros()` returns during the call: the code
stores this absolute wall-clock reading in the `timestamp` field, while
`relative_micros` only drives the sine waveforms. -/
noncomputable def test_data (config : AdcConfig) (relative_micros : Nat)
    (clock_now : Nat) : AdcData :=
  let t_secs : ℝ := (relative_micros : ℝ) / 1000000
  { samples :=
      config.channels.enum.map (fun p =>
        let freq : ℝ := 2 + (p.1 : ℝ) * 4
        let angle : ℝ := 2 * Real.pi * freq * t_secs
        [Real.sin angle])
  , timestamp := clock_now }

/-- One iteration of the acquisition loop's batch generation: `batch_size`
calls of `test_data` at relative timestamps `base_timestamp + i *
(1_000_000 / sample_rate)`; `clock i` is the wall-clock value
`current_timestamp_micros()` returns inside the `i`-th `test_data` call. -/
noncomputable def generateBatch (config : AdcConfig) (base_timestamp : Nat)
    (clock : Nat → Nat) : List AdcData :=
  let sample_interval : Nat := 1000000 / config.sample_rate
  (List.range config.batch_size).map (fun i =>
    test_data config (base_timestamp + i * sample_interval) (clock i))

/-- Driver states reachable through the public lifecycle: construction
followed by any sequence of successful `start_acquisition`,
`stop_acquisition` and `shutdown` calls. -/
inductive Reachable : MockDriverState → Prop where
  | new (cfg : AdcConfig) (add : Nat) (s : MockDriverState) (cap : Nat) :
      MockDriver.new cfg add = .ok (s, cap) → Reachable s
  | start (s s' : MockDriverState) (ev : List DriverEvent) :
      Reachable s → MockDriver.start_acquisition s = .ok (s', ev) → Reachable s'
  | stop (s s' : MockDriverState) (ev : List DriverEvent) :
      Reachable s → MockDriver.stop_acquisition s = .ok (s', ev) → Reachable s'
  | shutdown (s s' : MockDriverState) (ev : List DriverEvent) :
      Reachable s → MockDriver.shutdown s = .ok (s', ev) → Reachable s'

/-- The configuration used in the spec's scenario: `sample_rate = 250`,
channels `[0, 1]`, `batch_size = 32`, `mock = true`. -/
def cfg250 : AdcConfig :=
  { sample_rate := 250, gain := 1, channels := [0, 1], mock := true
  , batch_size := 32 }

/-- The state `MockDriver::new(cfg250, 0)` produces. -/
def fresh250 : MockDriverState :=
  { inner := { config := some cfg250, running := false, status := .Ok }
  , taskActive := false }

/-- The state after a successful `start_acquisition` on `fresh250`. -/
def started250 : MockDriverState :=
  { inner := { config := some cfg250, running := true, status := .Running }
  , taskActive := true }

/-- A configuration with `sample_rate = 0` and an empty channel list that the
constructor's validation nevertheless accepts. -/
def cfgZeroRate : AdcConfig :=
  { sample_rate := 0, gain := 1, channels := [], mock := true, batch_size := 1 }

/-- A small two-sample configuration used to evaluate batch generation. -/
def cfgBatch2 : AdcConfig :=
  { sample_rate := 250, gain := 1, channels := [0], mock := true
  , batch_size := 2 }

/-- The state left behind by `shutdown`: no config, not running, status
`NotInitialized`. -/
def shut250 : MockDriverState :=
  { inner := { config := none, running := false, status := .NotInitialized }
  , taskActive := false }

/-- `cfg250` with the `mock` flag cleared. -/
def cfgNonMock : AdcConfig :=
  { sample_rate := 250, gain := 1, channels := [0, 1], mock := false
  , batch_size := 32 }

/-- Claim C1: on a driver that is already running, a second
`start_acquisition` fails with `ConfigurationError`, and the state
established by the successful first call (`running = true`, status `Running`,
the spawned background task) is unchanged by the failed call. -/
theorem C1_second_start_fails (s₀ s₁ : MockDriverState) (ev : List DriverEvent)
    (h : MockDriver.start_acquisition s₀ = .ok (s₁, ev)) :
    s₁.inner.running = true ∧ s₁.inner.status = .Running ∧
    s₁.taskActive = true ∧
    MockDriver.start_acquisition s₁ =
      .error (.ConfigurationError "Acquisition already running") ∧
    postState s₁ (MockDriver.start_acquisition s₁) = s₁ := by
  unfold MockDriver.start_acquisition at h
  split at h
  · exact Except.noConfusion h
  · split at h
    · exact Except.noConfusion h
    · rw [Except.ok.injEq, Prod.mk.injEq] at h
      obtain ⟨hs, -⟩ := h
      subst hs
      exact ⟨rfl, rfl, rfl, rfl, rfl⟩

/-- Witness for C1 at the concrete state reached by
`MockDriver.new cfg250 0` followed by one successful `start_acquisition`. -/
theorem C1_second_start_fails_witness :
    started250.inner.running = true ∧ started250.inner.status = .Running ∧
    started250.taskActive = true ∧
    MockDriver.start_acquisition started250 =
      .error (.ConfigurationError "Acquisition already running") ∧
    postState started250 (MockDriver.start_acquisition started250) =
      started250 :=
  C1_second_start_fails fresh250 started250 [.StatusChange .Running] rfl

/-- Claim C4: `stop_acquisition` on a non-running driver is an idempotent
no-op returning `Ok` with the state unchanged and no event; on a running
driver it clears `running`, takes the task handle (waiting for the task),
sets status `Stopped` and emits `StatusChange(Stopped)`; hence
`start_acquisition` followed by `stop_acquisition` leaves status `Stopped`
with no background task active. -/
theorem C4_stop_semantics (s : MockDriverState) :
    (s.inner.running = false → MockDriver.stop_acquisition s = .ok (s, [])) ∧
    (s.inner.running = true →
      MockDriver.stop_acquisition s =
        .ok ({ inner := { s.inner with running := false, status := .Stopped }
             , taskActive := false }
            , [.StatusChange .Stopped])) ∧
    (∀ s₁ ev₁, MockDriver.start_acquisition s = .ok (s₁, ev₁) →
      ∃ s₂, MockDriver.stop_acquisition s₁ =
          .ok (s₂, [.StatusChange .Stopped]) ∧
        s₂.inner.status = .Stopped ∧ s₂.inner.running = false ∧
        s₂.taskActive = false) := by
  refine ⟨?_, ?_, ?_⟩
  · intro hr
    unfold MockDriver.stop_acquisition
    simp [hr]
  · intro hr
    unfold MockDriver.stop_acquisition
    simp [hr]
  · intro s₁ ev₁ h
    unfold MockDriver.start_acquisition at h
    split at h
    · exact Except.noConfusion h
    · split at h
      · exact Except.noConfusion h
      · rw [Except.ok.injEq, Prod.mk.injEq] at h
        obtain ⟨hs, -⟩ := h
        subst hs
        exact ⟨_, rfl, rfl, rfl, rfl⟩

/-- Witness for C4: the no-op case on the freshly constructed state and the
start-then-stop composition from the same state. -/
theorem C4_stop_semantics_witness :
    MockDriver.stop_acquisition fresh250 = .ok (fresh250, []) ∧
    ∃ s₂, MockDriver.stop_acquisition started250 =
        .ok (s₂, [.StatusChange .Stopped]) ∧
      s₂.inner.status = .Stopped ∧ s₂.inner.running = false ∧
      s₂.taskActive = false :=
  ⟨(C4_stop_semantics fresh250).1 rfl,
   (C4_stop_semantics fresh250).2.2 started250 [.StatusChange .Running] rfl⟩

/-- Counterexample to claim C5 as stated: a freshly constructed driver —
before any reconfiguration, since no `reconfigure` exists in this code —
already has a config stored, and `start_acquisition` on it succeeds rather
than failing with `NotConfigured`. -/
theorem C5_counterexample :
    MockDriver.new cfg250 0 = .ok (fresh250, 32) ∧
    fresh250.inner.config = some cfg250 ∧
    MockDriver.start_acquisition fresh250 =
      .ok (started250, [.StatusChange .Running]) :=
  ⟨rfl, rfl, rfl⟩

/-- Claim C5 (amended): `start_acquisition` fails with `NotConfigured`
exactly when no config is stored (leaving the state unchanged); but
construction always stores the provided config with status `Ok`, so the
config-less state arises only after `shutdown`. -/
theorem C5_start_not_configured (s : MockDriverState)
    (hr : s.inner.running = false) (hc : s.inner.config = none) :
    MockDriver.start_acquisition s = .error .NotConfigured ∧
    postState s (MockDriver.start_acquisition s) = s ∧
    (∀ cfg add s₀ cap, MockDriver.new cfg add = .ok (s₀, cap) →
      s₀.inner.config = some cfg ∧ s₀.inner.status = .Ok) ∧
    (∀ t t' ev, MockDriver.shutdown t = .ok (t', ev) →
      t'.inner.config = none) := by
  refine ⟨?_, ?_, ?_, ?_⟩
  · unfold MockDriver.start_acquisition
    simp [hr, hc]
  · unfold postState MockDriver.start_acquisition
    simp [hr, hc]
  · intro cfg add s₀ cap h
    unfold MockDriver.new at h
    split at h
    · exact Except.noConfusion h
    · split at h
      · exact Except.noConfusion h
      · split at h
        · exact Except.noConfusion h
        · dsimp only at h
          split at h
          · exact Except.noConfusion h
          · rw [Except.ok.injEq, Prod.mk.injEq] at h
            obtain ⟨hs, -⟩ := h
            subst hs
            exact ⟨rfl, rfl⟩
  · intro t t' ev h
    unfold MockDriver.shutdown at h
    dsimp only at h
    split at h
    · exact Except.noConfusion h
    · rename_i s₁ ev₁ heq
      rw [Except.ok.injEq, Prod.mk.injEq] at h
      obtain ⟨hs, -⟩ := h
      subst hs
      rfl

/-- Witness for C5's amended theorem at the post-shutdown state. -/
theorem C5_start_not_configured_witness :
    MockDriver.start_acquisition shut250 = .error .NotConfigured :=
  (C5_start_not_configured shut250 rfl rfl).1

/-- Claim C9: `get_status` is total — it returns a status for every lock
outcome and driver state, the stored status when the lock is acquired and
the `NotInitialized` fallback when it is not, never an error. -/
theorem C9_get_status_total (lockOk : Bool) (s : MockDriverState) :
    (MockDriver.get_status lockOk s = s.inner.status ∨
      MockDriver.get_status lockOk s = .NotInitialized) ∧
    (lockOk = false → MockDriver.get_status lockOk s = .NotInitialized) ∧
    (lockOk = true → MockDriver.get_status lockOk s = s.inner.status) := by
  cases lockOk <;> simp [MockDriver.get_status]

/-- Witness for C9: the fallback on a poisoned lock at a concrete state. -/
theorem C9_get_status_total_witness :
    MockDriver.get_status false started250 = DriverStatus.NotInitialized :=
  (C9_get_status_total false started250).2.1 rfl

/-- Counterexample to claim C2 as stated: a config with `sample_rate = 0` and
an empty channel list passes validation — construction succeeds, stores the
config and sets status `Ok` instead of failing with `ConfigurationError`. -/
theorem C2_counterexample :
    cfgZeroRate.sample_rate = 0 ∧ cfgZeroRate.channels = [] ∧
    MockDriver.new cfgZeroRate 0 =
      .ok ({ inner := { config := some cfgZeroRate, running := false
                      , status := .Ok }
           , taskActive := false }, 1) :=
  ⟨rfl, rfl, rfl⟩

/-- Claim C2 (amended): validation rejects with `ConfigurationError` every
config whose `mock` flag is false, whose `batch_size` is zero or smaller
than the number of channels, or whose derived buffer size
`batch_size + additional_channel_buffering` exceeds the hard ceiling of
10,000 slots; `sample_rate = 0` and an empty channel list are not checked.
On input passing these checks the config is stored and status is `Ok`. -/
theorem C2_validation (cfg : AdcConfig) (add : Nat) :
    (cfg.mock = false ∨ cfg.batch_size = 0 ∨
      cfg.batch_size < cfg.channels.length ∨
      cfg.batch_size + add > MAX_BUFFER_SIZE →
      ∃ msg, MockDriver.new cfg add = .error (.ConfigurationError msg)) ∧
    (cfg.mock = true → cfg.batch_size ≠ 0 →
      cfg.channels.length ≤ cfg.batch_size →
      cfg.batch_size + add ≤ MAX_BUFFER_SIZE →
      MockDriver.new cfg add =
        .ok ({ inner := { config := some cfg, running := false, status := .Ok }
             , taskActive := false }, cfg.batch_size + add)) := by
  constructor
  · intro hbad
    unfold MockDriver.new
    split
    · exact ⟨_, rfl⟩
    · split
      · exact ⟨_, rfl⟩
      · split
        · exact ⟨_, rfl⟩
        · dsimp only
          split
          · exact ⟨_, rfl⟩
          · rcases hbad with h | h | h | h <;> simp_all
  · intro hmock hbs hlen hbuf
    unfold MockDriver.new
    rw [if_neg (by simp [hmock]), if_neg hbs, if_neg (by omega)]
    dsimp only
    rw [if_neg (by omega)]

/-- Witness for C2's amended theorem: rejection of a non-mock config and
acceptance of the scenario config `cfg250`. -/
theorem C2_validation_witness :
    (∃ msg, MockDriver.new cfgNonMock 0 =
      .error (.ConfigurationError msg)) ∧
    MockDriver.new cfg250 0 =
      .ok ({ inner := { config := some cfg250, running := false, status := .Ok }
           , taskActive := false }, cfg250.batch_size + 0) :=
  ⟨(C2_validation cfgNonMock 0).1 (Or.inl rfl),
   (C2_validation cfg250 0).2 rfl (by decide) (by decide) (by decide)⟩

/-- Claim C7: the event queue is created with capacity
`batch_size + additional_channel_buffering`, and whenever that sum exceeds
10,000 construction fails with `ConfigurationError`. -/
theorem C7_queue_capacity (cfg : AdcConfig) (add : Nat) :
    (∀ s cap, MockDriver.new cfg add = .ok (s, cap) →
      cap = cfg.batch_size + add) ∧
    (cfg.batch_size + add > MAX_BUFFER_SIZE →
      ∃ msg, MockDriver.new cfg add = .error (.ConfigurationError msg)) := by
  constructor
  · intro s cap h
    unfold MockDriver.new at h
    split at h
    · exact Except.noConfusion h
    · split at h
      · exact Except.noConfusion h
      · split at h
        · exact Except.noConfusion h
        · dsimp only at h
          split at h
          · exact Except.noConfusion h
          · rw [Except.ok.injEq, Prod.mk.injEq] at h
            exact h.2.symm
  · intro hbig
    unfold MockDriver.new
    split
    · exact ⟨_, rfl⟩
    · split
      · exact ⟨_, rfl⟩
      · split
        · exact ⟨_, rfl⟩
        · dsimp only
          rw [if_pos hbig]
          exact ⟨_, rfl⟩

/-- Witness for C7: `cfg250` with no extra buffering yields capacity 32, and
asking for 32 + 999_968 = 1_000_000 slots fails with `ConfigurationError`. -/
theorem C7_queue_capacity_witness :
    (32 : Nat) = cfg250.batch_size + 0 ∧
    (∃ msg, MockDriver.new cfg250 999968 =
      .error (.ConfigurationError msg)) :=
  ⟨(C7_queue_capacity cfg250 0).1 fresh250 32 rfl,
   (C7_queue_capacity cfg250 999968).2 (by decide)⟩

/-- Counterexample to claim C8 as stated: the shared state is not created
empty with status `NotInitialized` — construction stores the given config
and sets status `Ok`. -/
theorem C8_counterexample :
    MockDriver.new cfg250 0 = .ok (fresh250, 32) ∧
    fresh250.inner.status = .Ok ∧
    fresh250.inner.config = some cfg250 ∧
    fresh250.inner.status ≠ .NotInitialized :=
  ⟨rfl, rfl, rfl, by decide⟩

/-- Claim C8 (amended): the shared state is created with the
construction-time config stored and status `Ok`; `shutdown` produces the
empty state — it stops acquisition when running, clears the config, sets
status `NotInitialized` and emits `StatusChange(NotInitialized)` — even when
no acquisition was ever started. -/
theorem C8_shutdown_resets (cfg : AdcConfig) (add : Nat) (s : MockDriverState)
    (cap : Nat) (hnew : MockDriver.new cfg add = .ok (s, cap)) :
    s.inner.status = .Ok ∧ s.inner.config = some cfg ∧
    s.inner.running = false ∧
    MockDriver.shutdown s =
      .ok ({ inner := { config := none, running := false
                      , status := .NotInitialized }
           , taskActive := false }
          , [.StatusChange .NotInitialized]) ∧
    (∀ t : MockDriverState, t.inner.running = true →
      ∃ t', MockDriver.shutdown t =
          .ok (t', [.StatusChange .Stopped, .StatusChange .NotInitialized]) ∧
        t'.inner.config = none ∧ t'.inner.status = .NotInitialized ∧
        t'.inner.running = false) := by
  have hstep : ∀ t : MockDriverState, t.inner.running = true →
      ∃ t', MockDriver.shutdown t =
          .ok (t', [.StatusChange .Stopped, .StatusChange .NotInitialized]) ∧
        t'.inner.config = none ∧ t'.inner.status = .NotInitialized ∧
        t'.inner.running = false := by
    intro t ht
    unfold MockDriver.shutdown MockDriver.stop_acquisition
    simp [ht]
  unfold MockDriver.new at hnew
  split at hnew
  · exact Except.noConfusion hnew
  · split at hnew
    · exact Except.noConfusion hnew
    · split at hnew
      · exact Except.noConfusion hnew
      · dsimp only at hnew
        split at hnew
        · exact Except.noConfusion hnew
        · rw [Except.ok.injEq, Prod.mk.injEq] at hnew
          obtain ⟨hs, -⟩ := hnew
          subst hs
          exact ⟨rfl, rfl, rfl, rfl, hstep⟩

/-- Witness for C8's amended theorem at the concrete construction
`MockDriver.new cfg250 0` and, for the running clause, at `started250`. -/
theorem C8_shutdown_resets_witness :
    MockDriver.shutdown fresh250 =
      .ok ({ inner := { config := none, running := false
                      , status := .NotInitialized }
           , taskActive := false }
          , [.StatusChange .NotInitialized]) ∧
    ∃ t', MockDriver.shutdown started250 =
        .ok (t', [.StatusChange .Stopped, .StatusChange .NotInitialized]) ∧
      t'.inner.config = none ∧ t'.inner.status = .NotInitialized ∧
      t'.inner.running = false :=
  ⟨(C8_shutdown_resets cfg250 0 fresh250 32 rfl).2.2.2.1,
   (C8_shutdown_resets cfg250 0 fresh250 32 rfl).2.2.2.2 started250 rfl⟩

/-- Claim C10: construction rejects every config whose `mock` flag is false
with `ConfigurationError`, and consequently no reachable driver state ever
holds a non-mock configuration. -/
theorem C10_mock_only (cfg : AdcConfig) (add : Nat) :
    (cfg.mock = false →
      MockDriver.new cfg add =
        .error (.ConfigurationError "MockDriver requires config.mock=true")) ∧
    (∀ s, Reachable s → ∀ c, s.inner.config = some c → c.mock = true) := by
  constructor
  · intro h
    unfold MockDriver.new
    rw [if_pos h]
  · intro s hs
    induction hs with
    | new cfg' add' s' cap h =>
        intro c hc
        unfold MockDriver.new at h
        split at h
        · exact Except.noConfusion h
        · rename_i hmock
          split at h
          · exact Except.noConfusion h
          · split at h
            · exact Except.noConfusion h
            · dsimp only at h
              split at h
              · exact Except.noConfusion h
              · rw [Except.ok.injEq, Prod.mk.injEq] at h
                obtain ⟨hs', -⟩ := h
                subst hs'
                rw [Option.some.injEq] at hc
                subst hc
                exact Bool.not_eq_false _ |>.mp hmock
    | start s₁ s' ev hr hstep ih =>
        intro c hc
        unfold MockDriver.start_acquisition at hstep
        split at hstep
        · exact Except.noConfusion hstep
        · split at hstep
          · exact Except.noConfusion hstep
          · rw [Except.ok.injEq, Prod.mk.injEq] at hstep
            obtain ⟨hs', -⟩ := hstep
            subst hs'
            exact ih c hc
    | stop s₁ s' ev hr hstep ih =>
        intro c hc
        unfold MockDriver.stop_acquisition at hstep
        split at hstep
        · rw [Except.ok.injEq, Prod.mk.injEq] at hstep
          obtain ⟨hs', -⟩ := hstep
          subst hs'
          exact ih c hc
        · rw [Except.ok.injEq, Prod.mk.injEq] at hstep
          obtain ⟨hs', -⟩ := hstep
          subst hs'
          exact ih c hc
    | shutdown s₁ s' ev hr hstep ih =>
        intro c hc
        unfold MockDriver.shutdown at hstep
        dsimp only at hstep
        split at hstep
        · exact Except.noConfusion hstep
        · rw [Except.ok.injEq, Prod.mk.injEq] at hstep
          obtain ⟨hs', -⟩ := hstep
          subst hs'
          exact Option.noConfusion hc

/-- Witness for C10: rejection of the concrete non-mock config, and the
mock-flag invariant read off the reachable state `fresh250`. -/
theorem C10_mock_only_witness :
    MockDriver.new cfgNonMock 0 =
      .error (.ConfigurationError "MockDriver requires config.mock=true") ∧
    cfg250.mock = true :=
  ⟨(C10_mock_only cfgNonMock 0).1 rfl,
   (C10_mock_only cfg250 0).2 fresh250
     (Reachable.new cfg250 0 fresh250 32 rfl) cfg250 rfl⟩

/-- Claim C3 (evaluated at the failing input): the emitted batch does not
carry timestamps `base_timestamp + i * sample_interval` — `test_data` stores
the absolute wall-clock reading in every sample's `timestamp` field, so with
`base_timestamp = 0`, `sample_rate = 250` (interval 4000 µs), `batch_size = 2`
and a wall clock reading 5_000_000 µs, both samples carry timestamp
5_000_000 instead of 0 and 4000, and consecutive timestamps differ by 0
rather than 4000. -/
theorem C3_batch_timestamps_wall_clock :
    (generateBatch cfgBatch2 0 (fun _ => 5000000)).map AdcData.timestamp =
      [5000000, 5000000] ∧
    1000000 / cfgBatch2.sample_rate = 4000 ∧
    (generateBatch cfgBatch2 0 (fun _ => 5000000)).map AdcData.timestamp ≠
      [0 + 0 * 4000, 0 + 1 * 4000] := by
  have h₁ : (generateBatch cfgBatch2 0 (fun _ => 5000000)).map
      AdcData.timestamp = [5000000, 5000000] := by
    unfold generateBatch test_data
    rfl
  refine ⟨h₁, rfl, ?_⟩
  rw [h₁]
  decide

/-- Claim C6: the signal generator yields one scalar per channel; the 0-based
channel `i` gets exactly `sin(2π · (2 + 4i) · (T / 1_000_000))` (so in this
real-valued model of the `f32` arithmetic the 1e-6 tolerance holds with
margin zero), and the sample values are independent of the wall clock, i.e.
identical inputs always yield identical outputs. -/
theorem C6_signal_generator (cfg : AdcConfig) (T : Nat) (clk clk' : Nat)
    (i : Nat) (h : i < cfg.channels.length) :
    (test_data cfg T clk).samples.length = cfg.channels.length ∧
    (test_data cfg T clk).samples[i]? =
      some [Real.sin (2 * Real.pi * (2 + 4 * (i : ℝ)) *
        ((T : ℝ) / 1000000))] ∧
    (∀ v, (test_data cfg T clk).samples[i]? = some [v] →
      |v - Real.sin (2 * Real.pi * (2 + 4 * (i : ℝ)) *
        ((T : ℝ) / 1000000))| ≤ 1 / 1000000) ∧
    (test_data cfg T clk).samples = (test_data cfg T clk').samples := by
  have hchan : cfg.channels[i]? = some cfg.channels[i] :=
    List.getElem?_eq_getElem h
  have hget : (test_data cfg T clk).samples[i]? =
      some [Real.sin (2 * Real.pi * (2 + 4 * (i : ℝ)) *
        ((T : ℝ) / 1000000))] := by
    unfold test_data
    dsimp only
    rw [List.getElem?_map, List.getElem?_enum, hchan]
    dsimp only [Option.map_some']
    rw [show (2 : ℝ) * Real.pi * (2 + (i : ℝ) * 4) * ((T : ℝ) / 1000000) =
      2 * Real.pi * (2 + 4 * (i : ℝ)) * ((T : ℝ) / 1000000) from by ring]
  refine ⟨?_, hget, ?_, rfl⟩
  · unfold test_data
    simp
  · intro v hv
    rw [hget, Option.some.injEq] at hv
    have hv' : v = Real.sin (2 * Real.pi * (2 + 4 * (i : ℝ)) *
        ((T : ℝ) / 1000000)) := (List.cons.injEq _ _ _ _).mp hv.symm |>.1
    rw [hv', sub_self, abs_zero]
    norm_num

/-- Witness for C6 at the scenario config `cfg250`, channel 1,
relative timestamp 0 and two different wall-clock readings. -/
theorem C6_signal_generator_witness :
    (1 : Nat) < cfg250.channels.length ∧
    (test_data cfg250 0 5).samples[1]? =
      some [Real.sin (2 * Real.pi * (2 + 4 * ((1 : Nat) : ℝ)) *
        (((0 : Nat) : ℝ) / 1000000))] ∧
    (test_data cfg250 0 5).samples = (test_data cfg250 0 7).samples :=
  ⟨by decide,
   (C6_signal_generator cfg250 0 5 7 1 (by decide)).2.1,
   (C6_signal_generator cfg250 0 5 7 1 (by decide)).2.2.2⟩

end EegDriver
